import Mathlib

/-!
Verification of the incentive-weighting core of the Tenexium subnet validator:
the metrics data store (src/scripts/data_store.py), the metrics poller
(src/scripts/metrics_poller.py) and the weight engine
(src/scripts/validator.py), shallowly embedded in Lean.

Modelling conventions:
* Python floats are embedded as exact rationals (ℚ); decimal literals such as
  0.2625 denote the same rational value the source writes.
* Unix timestamps and block numbers are integers (ℤ), as produced by
  int(time.time()) and eth.get_block_number().
* Python raising ZeroDivisionError is embedded by returning none from an
  Option-valued function; every division in the embedding is either guarded
  exactly as the source guards it, or its divisor is checked and none is
  returned where Python would raise.
* The SQLite metrics table is embedded as a list of rows in insertion
  (auto-increment id) order.
-/

/-- One row of the metrics table (data_store.py, CREATE TABLE metrics:
timestamp, eth_block_number, total_trading_fees, total_borrowing_fees,
subnet_price, total_liquidity). -/
structure Metric where
  timestamp : ℤ
  eth_block_number : ℤ
  total_trading_fees : ℚ
  total_borrowing_fees : ℚ
  subnet_price : ℚ
  total_liquidity : ℚ
  deriving DecidableEq

/-- Contents of the metrics table, rows in insertion (auto-increment id) order. -/
abbrev Store := List Metric

/-- ValidatorDataStore.prune_old_data (data_store.py:188-204): DELETE FROM
metrics WHERE timestamp < now - 24h.  Returns the surviving rows together with
the number of deleted rows (cursor.rowcount). -/
def prune_old_data (now : ℤ) (store : Store) : Store × Nat :=
  (store.filter (fun m => ! decide (m.timestamp < now - 86400)),
   (store.filter (fun m => decide (m.timestamp < now - 86400))).length)

/-- ValidatorDataStore.get_data_age_hours (data_store.py:166-186): SELECT
MIN(timestamp), MAX(timestamp); the Python guard `if not result or not
result[0]` returns 0.0 both when the table is empty (SQL MIN is NULL) and when
the minimum timestamp is the falsy integer 0; otherwise (max - min) / 3600. -/
def get_data_age_hours (store : Store) : ℚ :=
  match (store.map Metric.timestamp).min?, (store.map Metric.timestamp).max? with
  | some mn, some mx => if mn = 0 then 0 else ((mx - mn : ℤ) : ℚ) / 3600
  | _, _ => 0

/-- ValidatorDataStore.get_record_count (data_store.py:206-211). -/
def get_record_count (store : Store) : Nat :=
  store.length

/-- Stable insertion of a row into a timestamp-sorted list: the row goes in
front of the first strictly later row, hence after any equal timestamps. -/
def insert_by_timestamp (m : Metric) : List Metric → List Metric
  | [] => [m]
  | x :: xs =>
    if m.timestamp ≤ x.timestamp then m :: x :: xs
    else x :: insert_by_timestamp m xs

/-- Stable sort of rows by ascending timestamp (equal timestamps keep their
insertion order, i.e. SQL ORDER BY timestamp with rowid tie-break). -/
def sort_by_timestamp : List Metric → List Metric
  | [] => []
  | x :: xs => insert_by_timestamp x (sort_by_timestamp xs)

/-- Modelled from the spec: ValidatorDataStore.get_all_24h_data is invoked by
MetricsPoller.get_24h_calculations (metrics_poller.py:177) but no such method
is defined in src/scripts/data_store.py.  Spec section 4.1 (allWithin24h):
every retained snapshot with captured_at >= now - 24h, in ascending time order,
ties broken by sequence id (a stable sort of the insertion-ordered rows). -/
def get_all_24h_data (now : ℤ) (store : Store) : List Metric :=
  sort_by_timestamp (store.filter (fun m => decide (now - 86400 ≤ m.timestamp)))

/- ### Claims C7, C8, C9: data-store retention, age, prune idempotence -/

/-- C7: for every store state and clock value, after prune_old_data every
remaining snapshot satisfies captured_at >= now - 24h, and no snapshot
satisfying that bound was removed.  (Proved for arbitrary stores, which covers
in particular every sequence of snapshots inserted at strictly increasing
timestamps.) -/
theorem c7_prune_retention (now : ℤ) (store : Store) :
    (∀ m ∈ (prune_old_data now store).1, now - 86400 ≤ m.timestamp) ∧
    (∀ m ∈ store, now - 86400 ≤ m.timestamp → m ∈ (prune_old_data now store).1) := by
  constructor
  · intro m hm
    simp only [prune_old_data, List.mem_filter, Bool.not_eq_true', decide_eq_false_iff_not,
      not_lt] at hm
    omega
  · intro m hm hts
    simp only [prune_old_data, List.mem_filter, Bool.not_eq_true', decide_eq_false_iff_not,
      not_lt]
    exact ⟨hm, by omega⟩

/-- C7 witness: concrete instance of the retention theorem.  A store holding a
row at timestamp 0 pruned at now = 86400 keeps that row (its timestamp meets
the bound 86400 - 86400 = 0). -/
theorem c7_prune_retention_witness :
    (⟨0, 1, 0, 0, 1, 1⟩ : Metric) ∈
      (prune_old_data 86400 [(⟨0, 1, 0, 0, 1, 1⟩ : Metric)]).1 :=
  (c7_prune_retention 86400 [⟨0, 1, 0, 0, 1, 1⟩]).2 ⟨0, 1, 0, 0, 1, 1⟩
    (by decide) (by decide)

/-- C8: evaluation of get_data_age_hours at the failing input.  A store whose
two snapshots sit at timestamps 0 and 3600 spans one hour of data, and the
claim (and the function's own docstring: 0 only when there is no data) demands
1.0; the code returns 0.0 because `not result[0]` treats the falsy minimum
timestamp 0 as an empty table. -/
theorem c8_data_age_at_failing_input :
    get_data_age_hours [⟨0, 1, 0, 0, 1, 1⟩, ⟨3600, 2, 0, 0, 1, 1⟩] = 0 ∧
    (((3600 : ℤ) - 0 : ℤ) : ℚ) / 3600 = 1 := by
  constructor
  · rfl
  · norm_num

/-- C9 counterexample: pruning twice in a row with no intervening insert but a
clock that advances by one second between the calls removes a record the
second time.  A row at timestamp 0 survives the first prune at now = 86400
(the cutoff is exactly 0) and is deleted by the second prune at now = 86401,
so the second call removes 1 record, not 0. -/
theorem c9_counterexample :
    (prune_old_data 86400 [(⟨0, 1, 0, 0, 1, 1⟩ : Metric)]).1 =
      [(⟨0, 1, 0, 0, 1, 1⟩ : Metric)] ∧
    (86400 : ℤ) ≤ 86401 ∧
    (prune_old_data 86401 (prune_old_data 86400
      [(⟨0, 1, 0, 0, 1, 1⟩ : Metric)]).1).2 = 1 := by
  refine ⟨by decide, by decide, by decide⟩

/-- C9 amended: prune_old_data is idempotent when the clock is unchanged
between the two calls: with no intervening insert, a second prune at the same
clock value removes 0 records. -/
theorem c9_prune_idempotent_same_clock (now : ℤ) (store : Store) :
    (prune_old_data now (prune_old_data now store).1).2 = 0 := by
  simp only [prune_old_data, List.filter_filter]
  rw [List.length_eq_zero]
  apply List.filter_eq_nil_iff.mpr
  intro m hm
  cases h : decide (m.timestamp < now - 86400) <;> simp [h]

/- ### MetricsPoller: 24-hour rate derivation (metrics_poller.py:169-244) -/

/-- LP reward of one consecutive snapshot interval
(metrics_poller.py:203-219): fee deltas are normalized to a 24-hour rate and
combined as 26.25 percent of trading fees plus 30.625 percent of borrowing
fees. -/
def interval_daily_lp_reward (current next_point : Metric) : ℚ :=
  let time_diff_hours : ℚ := ((next_point.timestamp - current.timestamp : ℤ) : ℚ) / 3600
  let normalization_factor : ℚ := 24 / time_diff_hours
  let daily_trading_fees :=
    (next_point.total_trading_fees - current.total_trading_fees) * normalization_factor
  let daily_borrowing_fees :=
    (next_point.total_borrowing_fees - current.total_borrowing_fees) * normalization_factor
  daily_trading_fees * 0.2625 + daily_borrowing_fees * 0.30625

/-- Interval rewards of all consecutive pairs, skipping pairs whose
time difference is non-positive (metrics_poller.py:198-220).  The source
iterates i over range(len - 1); the pair list all_data.zip all_data.tail is
exactly the list of (all_data[i], all_data[i+1]). -/
def daily_lp_rewards (all_data : List Metric) : List ℚ :=
  (all_data.zip all_data.tail).filterMap fun p =>
    if ((p.2.timestamp - p.1.timestamp : ℤ) : ℚ) / 3600 ≤ 0 then none
    else some (interval_daily_lp_reward p.1 p.2)

/-- MetricsPoller.get_24h_calculations (metrics_poller.py:169-244): pull the
retained 24h window, require at least 2 points, average the valid interval LP
rewards, and derive miner daily emission from the average subnet price. -/
def get_24h_calculations (now : ℤ) (store : Store) : Option (ℚ × ℚ) :=
  let all_data := get_all_24h_data now store
  if all_data.length < 2 then none
  else
    let rewards := daily_lp_rewards all_data
    if rewards = [] then none
    else some (rewards.sum / (rewards.length : ℚ),
      ((all_data.map Metric.subnet_price).sum / (all_data.length : ℚ)) * 7200 * 0.41)

/-- Arithmetic mean of a list of rationals, as the claims state it. -/
def mean_q (l : List ℚ) : ℚ := l.sum / (l.length : ℚ)

/-- Interval LP rewards of the consecutive pairs with positive time
difference, phrased the way the claims phrase it (pairs with
b.captured_at > a.captured_at). -/
def valid_interval_rewards (pts : List Metric) : List ℚ :=
  (pts.zip pts.tail).filterMap fun p =>
    if p.1.timestamp < p.2.timestamp then some (interval_daily_lp_reward p.1 p.2)
    else none

/-- Skip condition of the source, dt_hours <= 0 computed in rationals, is
exactly the negation of a strictly increasing pair of timestamps. -/
theorem interval_cond_iff (a b : Metric) :
    (((b.timestamp - a.timestamp : ℤ) : ℚ) / 3600 ≤ 0) ↔
      ¬ a.timestamp < b.timestamp := by
  rw [div_le_iff₀ (by norm_num : (0 : ℚ) < 3600), zero_mul, Int.cast_nonpos]
  omega

/-- Source-side reward list and claim-side reward list agree. -/
theorem daily_lp_rewards_eq_valid (pts : List Metric) :
    daily_lp_rewards pts = valid_interval_rewards pts := by
  unfold daily_lp_rewards valid_interval_rewards
  congr 1
  funext p
  by_cases h : p.1.timestamp < p.2.timestamp
  · rw [if_neg (fun hc => (interval_cond_iff p.1 p.2).mp hc h), if_pos h]
  · rw [if_pos ((interval_cond_iff p.1 p.2).mpr h), if_neg h]

/-- Reward list is empty exactly when every consecutive pair has a
non-positive time difference. -/
theorem daily_lp_rewards_eq_nil_iff (pts : List Metric) :
    daily_lp_rewards pts = [] ↔
      ∀ p ∈ pts.zip pts.tail, p.2.timestamp ≤ p.1.timestamp := by
  rw [daily_lp_rewards_eq_valid]
  unfold valid_interval_rewards
  rw [List.filterMap_eq_nil_iff]
  constructor
  · intro h p hp
    have hh := h p hp
    by_cases hlt : p.1.timestamp < p.2.timestamp
    · rw [if_pos hlt] at hh; exact absurd hh (by simp)
    · omega
  · intro h p hp
    rw [if_neg (by have := h p hp; omega)]

/-- C1: get_24h_calculations pulls the ordered 24h window from the store; it
returns none exactly when fewer than 2 points are retained or every
consecutive pair has dt_hours <= 0 (it never raises, the embedding is total on
those paths), and any returned pair is (mean of the valid consecutive-pair
interval LP rewards, mean subnet price * 7200 * 0.41). -/
theorem c1_get_24h_calculations (now : ℤ) (store : Store) :
    (get_24h_calculations now store = none ↔
      (get_all_24h_data now store).length < 2 ∨
        ∀ p ∈ (get_all_24h_data now store).zip (get_all_24h_data now store).tail,
          p.2.timestamp ≤ p.1.timestamp) ∧
    (∀ lp me, get_24h_calculations now store = some (lp, me) →
      lp = mean_q (valid_interval_rewards (get_all_24h_data now store)) ∧
      me = mean_q ((get_all_24h_data now store).map Metric.subnet_price)
        * 7200 * 0.41) := by
  constructor
  · simp only [get_24h_calculations]
    by_cases h1 : (get_all_24h_data now store).length < 2
    · rw [if_pos h1]
      exact iff_of_true rfl (Or.inl h1)
    · rw [if_neg h1]
      by_cases h2 : daily_lp_rewards (get_all_24h_data now store) = []
      · rw [if_pos h2]
        exact iff_of_true rfl (Or.inr ((daily_lp_rewards_eq_nil_iff _).mp h2))
      · rw [if_neg h2]
        refine iff_of_false (by simp) ?_
        rintro (h | h)
        · exact h1 h
        · exact h2 ((daily_lp_rewards_eq_nil_iff _).mpr h)
  · intro lp me hsome
    simp only [get_24h_calculations] at hsome
    by_cases h1 : (get_all_24h_data now store).length < 2
    · rw [if_pos h1] at hsome; exact absurd hsome (by simp)
    · rw [if_neg h1] at hsome
      by_cases h2 : daily_lp_rewards (get_all_24h_data now store) = []
      · rw [if_pos h2] at hsome; exact absurd hsome (by simp)
      · rw [if_neg h2, Option.some.injEq, Prod.mk.injEq] at hsome
        constructor
        · rw [← hsome.1, daily_lp_rewards_eq_valid, mean_q]
        · rw [← hsome.2, mean_q, List.length_map]

/-- Concrete two-point store used to witness C1: snapshots two hours apart
with trading-fee delta 10, borrowing-fee delta 4 and subnet price 1. -/
def c1_demo_store : Store :=
  [⟨0, 1, 100, 50, 1, 1000⟩, ⟨7200, 2, 110, 54, 1, 1000⟩]

/-- C1 witness: on the concrete two-point store the computation returns
some (46.2, 2952), and the theorem instantiates to the claimed means. -/
theorem c1_witness :
    (46.2 : ℚ) = mean_q (valid_interval_rewards (get_all_24h_data 7200 c1_demo_store)) ∧
    (2952 : ℚ) = mean_q ((get_all_24h_data 7200 c1_demo_store).map Metric.subnet_price)
      * 7200 * 0.41 :=
  (c1_get_24h_calculations 7200 c1_demo_store).2 46.2 2952 (by
    norm_num [get_24h_calculations, get_all_24h_data, c1_demo_store, sort_by_timestamp,
      insert_by_timestamp, daily_lp_rewards, interval_daily_lp_reward,
      List.filterMap_cons, List.filterMap_nil, List.zip_cons_cons, List.zip_nil_right,
      List.tail_cons])

/-- Concrete two-point store of the C6 scenario: snapshots 2 hours apart,
trading-fee delta 10, borrowing-fee delta 4. -/
def c6_store : Store :=
  [⟨0, 5, 200, 80, 1, 500⟩, ⟨7200, 6, 210, 84, 1, 500⟩]

/-- C6 counterexample: on two snapshots 2 hours apart with trading-fee delta
10 and borrowing-fee delta 4 the single-interval daily LP reward is
(10*12)*0.2625 + (4*12)*0.30625 = 46.2, not 46.5 as the claim computes. -/
theorem c6_counterexample :
    (get_24h_calculations 7200 c6_store).map Prod.fst = some 46.2 ∧
    (10 * 12 : ℚ) * 0.2625 + (4 * 12) * 0.30625 = 46.2 ∧
    (46.2 : ℚ) ≠ 46.5 := by
  refine ⟨?_, by norm_num, by norm_num⟩
  norm_num [get_24h_calculations, get_all_24h_data, c6_store, sort_by_timestamp,
    insert_by_timestamp, daily_lp_rewards, interval_daily_lp_reward,
    List.filterMap_cons, List.filterMap_nil, List.zip_cons_cons, List.zip_nil_right,
    List.tail_cons]

/-- C6 amended: for every pair of snapshots 2 hours (7200 seconds) apart with
trading-fee delta 10 and borrowing-fee delta 4, the derived single-interval
daily LP reward equals (10*12)*0.2625 + (4*12)*0.30625 = 46.2. -/
theorem c6_single_interval_reward (t0 blk1 blk2 : ℤ) (tf bf p1 p2 lq1 lq2 : ℚ) :
    (get_24h_calculations (t0 + 7200)
      [⟨t0, blk1, tf, bf, p1, lq1⟩,
       ⟨t0 + 7200, blk2, tf + 10, bf + 4, p2, lq2⟩]).map Prod.fst = some 46.2 := by
  have hwin : get_all_24h_data (t0 + 7200)
      [⟨t0, blk1, tf, bf, p1, lq1⟩, ⟨t0 + 7200, blk2, tf + 10, bf + 4, p2, lq2⟩] =
      [⟨t0, blk1, tf, bf, p1, lq1⟩, ⟨t0 + 7200, blk2, tf + 10, bf + 4, p2, lq2⟩] := by
    unfold get_all_24h_data
    rw [List.filter_cons_of_pos (by simp), List.filter_cons_of_pos (by simp),
      List.filter_nil]
    simp only [sort_by_timestamp, insert_by_timestamp]
    rw [if_pos (by omega : (t0 : ℤ) ≤ t0 + 7200)]
  have hrew : daily_lp_rewards
      [⟨t0, blk1, tf, bf, p1, lq1⟩, ⟨t0 + 7200, blk2, tf + 10, bf + 4, p2, lq2⟩] =
      [46.2] := by
    simp only [daily_lp_rewards, List.tail_cons, List.zip_cons_cons, List.zip_nil_right,
      List.filterMap_cons, List.filterMap_nil]
    rw [if_neg (by push_cast; ring_nf; norm_num)]
    simp only [interval_daily_lp_reward, List.cons.injEq, and_true]
    push_cast
    ring_nf
  simp only [get_24h_calculations, hwin, hrew]
  rw [if_neg (by simp), if_neg (by simp)]
  norm_num

/- ### MetricsPoller: background polling loop (metrics_poller.py:83-121) -/

/-- Outcome of one poll attempt: the poll either completes or raises. -/
inductive TickOutcome
  | ok : TickOutcome
  | err : TickOutcome
  deriving DecidableEq

/-- Observable summary of one run of the polling loop. -/
structure PollingRun where
  crashed : Bool
  backoffs : Nat
  polls_completed : Nat
  deriving DecidableEq

/-- Iterations of the while-loop body (metrics_poller.py:96-112), given the
outcome of each iteration in order until the stop event ends the loop: a
successful iteration completes one poll; a raising iteration is caught by the
except arm, logged, backs off 5 seconds and the loop continues.  Returns
(number of backoffs, number of completed polls). -/
def run_iterations : List TickOutcome → Nat × Nat
  | [] => (0, 0)
  | TickOutcome.ok :: rest =>
    ((run_iterations rest).1, (run_iterations rest).2 + 1)
  | TickOutcome.err :: rest =>
    ((run_iterations rest).1 + 1, (run_iterations rest).2)

/-- MetricsPoller._polling_loop (metrics_poller.py:83-121).  The immediate
initial poll (line 94) runs inside the outer try, which has a finally but no
except arm: an exception there propagates, the while loop is never entered and
the background thread exits.  Errors inside the while loop are caught by its
except arm and the loop continues. -/
def polling_loop (initial_poll : TickOutcome) (iterations : List TickOutcome) :
    PollingRun :=
  match initial_poll with
  | TickOutcome.err => { crashed := true, backoffs := 0, polls_completed := 0 }
  | TickOutcome.ok =>
    { crashed := false
      backoffs := (run_iterations iterations).1
      polls_completed := (run_iterations iterations).2 + 1 }

/-- C5 counterexample: a run whose very first, immediate poll raises
terminates the polling loop (the outer try has only a finally arm), with no
backoff and no further iterations; so a single failed poll tick can terminate
the background loop, contrary to the claim. -/
theorem c5_counterexample :
    polling_loop TickOutcome.err [] =
      { crashed := true, backoffs := 0, polls_completed := 0 } := by
  decide

/-- C5 amended: once the initial immediate poll has succeeded, no failed
iteration of the while loop terminates the polling loop: every raising
iteration is followed by one fixed backoff and the loop continues, completing
every successful poll in the run. -/
theorem c5_loop_survives_errors (iterations : List TickOutcome) :
    (polling_loop TickOutcome.ok iterations).crashed = false ∧
    (polling_loop TickOutcome.ok iterations).backoffs =
      iterations.countP (fun t => decide (t = TickOutcome.err)) ∧
    (polling_loop TickOutcome.ok iterations).polls_completed =
      1 + iterations.countP (fun t => decide (t = TickOutcome.ok)) := by
  have key : ∀ l : List TickOutcome,
      run_iterations l =
        (l.countP (fun t => decide (t = TickOutcome.err)),
         l.countP (fun t => decide (t = TickOutcome.ok))) := by
    intro l
    induction l with
    | nil => rfl
    | cons head tail ih =>
      cases head <;>
        simp [run_iterations, ih, List.countP_cons]
  simp [polling_loop, key]
  omega

/- ### TenexiumValidator: weight engine (validator.py:115-277) -/

/-- Per-provider chain state read by the weight passes: the staked balance in
wei (liquidityProviders(lp)[0]), the lifetime liquidation value
(totalLiquidatorLiquidationValue(lp)) and the per-day liquidation values
(dailyLiquidatorLiquidationValue(lp, day)). -/
structure ProviderInfo where
  balance_wei : ℤ
  total_liquidation_value : ℤ
  daily_liquidation_value : ℤ → ℤ

/-- Inputs of one run of get_unnormalized_weights (validator.py:156-277).
The uids are 0..n-1 (metagraph.uids); apr_growth_rate stands for the fixed
float (1 + miner_apy)**(1/365) - 1 of line 205, an irrational constant that
has no exact rational embedding and is therefore carried as a parameter;
daily_lp_reward and miner_daily_emission are the rate estimates obtained
before line 200 (from get_24h_calculations or the spot fallback);
total_liquidity is the spot totalLpStakes()/10^18 read at line 198;
provider_count uid embeds liquidityProviderSetLength (none = failed read,
skipped); providers uid i embeds groupLiquidityProviders(hotkey(uid), i)
(none = failed read, skipped); current_block is the Ethereum block height of
line 160 (non-negative on chain, so Python int-truncation and integer
division by 7200 agree). -/
structure WeightInputs where
  apr_growth_rate : ℚ
  daily_lp_reward : ℚ
  miner_daily_emission : ℚ
  total_liquidity : ℚ
  n : ℕ
  max_liquidity_providers_per_hotkey : ℕ
  provider_count : ℕ → Option ℕ
  providers : ℕ → ℕ → Option ProviderInfo
  current_block : ℤ

/-- Fraction of miner emission steered to liquidity providers
(validator.py:200-208): when miner_daily_emission + daily_lp_reward > 0 the
code computes min(1, (total_liquidity * apr_growth_rate - daily_lp_reward) /
miner_daily_emission), raising ZeroDivisionError (none) when
miner_daily_emission is 0; otherwise 0.  The source has no floor at 0. -/
def lp_emission_percentage (apr_growth_rate total_liquidity daily_lp_reward
    miner_daily_emission : ℚ) : Option ℚ :=
  if miner_daily_emission + daily_lp_reward > 0 then
    if miner_daily_emission = 0 then none
    else some (min 1
      ((total_liquidity * apr_growth_rate - daily_lp_reward) / miner_daily_emission))
  else some 0

/-- Sum of a list of partial values; none (an exception) aborts the run. -/
def option_sum : List (Option ℚ) → Option ℚ
  | [] => some 0
  | none :: _ => none
  | some x :: rest => (option_sum rest).map (fun s => x + s)

/-- Collect a list of partial values; none (an exception) aborts the run. -/
def option_list : List (Option ℚ) → Option (List ℚ)
  | [] => some []
  | none :: _ => none
  | some x :: rest => (option_list rest).map (fun l => x :: l)

/-- Providers iterated for one uid (validator.py:224-231 and 249-256): none
from the set-length read means continue (no providers iterated); otherwise
the indexed reads for i in range(min(count, max_per_hotkey)). -/
def iterated_providers (inp : WeightInputs) (uid : ℕ) : List (Option ProviderInfo) :=
  match inp.provider_count uid with
  | none => []
  | some c =>
    (List.range (min c inp.max_liquidity_providers_per_hotkey)).map (inp.providers uid)

/-- One provider's contribution to the LP pass (validator.py:231-239): a
failed read is skipped (contributes 0); otherwise
lp_pct * (balance_wei / 10^18) / total_liquidity, which raises
ZeroDivisionError (none) when total_liquidity is 0. -/
def lp_term (lp_pct total_liquidity : ℚ) : Option ProviderInfo → Option ℚ
  | none => some 0
  | some p =>
    if total_liquidity = 0 then none
    else some (lp_pct * ((p.balance_wei : ℚ) / 10 ^ 18) / total_liquidity)

/-- LP-pass weight accumulated for one uid (validator.py:230-239). -/
def uid_lp_weight (inp : WeightInputs) (lp_pct : ℚ) (uid : ℕ) : Option ℚ :=
  option_sum ((iterated_providers inp uid).map (lp_term lp_pct inp.total_liquidity))

/-- LP pass over all uids (validator.py:216-239); uid 0 is skipped and keeps
its initial weight 0. -/
def lp_pass (inp : WeightInputs) (lp_pct : ℚ) : Option (List ℚ) :=
  option_list ((List.range inp.n).map fun uid =>
    if uid = 0 then some 0 else uid_lp_weight inp lp_pct uid)

/-- One provider's liquidation score (validator.py:256-267):
total * 0.2 + trailing-7-day * 0.3 + current-day * 0.5; a failed read is
skipped (contributes 0). -/
def liquidation_term (current_day : ℤ) : Option ProviderInfo → ℚ
  | none => 0
  | some p =>
    (p.total_liquidation_value : ℚ) * 0.2 +
      ((((List.range 7).map fun k =>
        p.daily_liquidation_value (current_day - 7 + k)).sum : ℤ) : ℚ) * 0.3 +
      (p.daily_liquidation_value current_day : ℚ) * 0.5

/-- Liquidation pass (validator.py:241-269); uid 0 is skipped and keeps score
0, so the grand total over all uids equals the sum the source accumulates
over uids other than 0. -/
def liq_weights (inp : WeightInputs) : List ℚ :=
  (List.range inp.n).map fun uid =>
    if uid = 0 then 0
    else ((iterated_providers inp uid).map
      (liquidation_term (inp.current_block / 7200))).sum

/-- TenexiumValidator.get_unnormalized_weights (validator.py:156-277), given
the rate estimates: the LP pass distributes lp_emission_percentage by stake
share; the liquidation pass distributes liquidator_emission_percentage =
1 - lp_emission_percentage by liquidation score, with the sentinel fallback
weights[0] = liquidator_emission_percentage when the grand liquidation total
is <= 0 (validator.py:271-275).  none embeds a raised ZeroDivisionError. -/
def get_unnormalized_weights (inp : WeightInputs) : Option (List ℚ) :=
  (lp_emission_percentage inp.apr_growth_rate inp.total_liquidity
      inp.daily_lp_reward inp.miner_daily_emission).bind fun lp_pct =>
    (lp_pass inp lp_pct).map fun weights =>
      let liquidator_pct := 1 - lp_pct
      let liq := liq_weights inp
      let total_liq := liq.sum
      if total_liq ≤ 0 then weights.set 0 liquidator_pct
      else (weights.zip liq).map fun wl => wl.1 + liquidator_pct * wl.2 / total_liq

/-- TenexiumValidator.prepare_weights (validator.py:138-154): scale every raw
weight by 65535 / total with float division (no rounding to integers); when
the raw total is 0 assign 65535 to index 0 and leave the rest 0 (the
assignment uint_weights[0] raises IndexError (none) on an empty vector, which
does not arise since metagraph.uids is nonempty). -/
def prepare_weights (weights : List ℚ) : Option (List ℚ) :=
  let U16_MAX : ℚ := 65535
  if weights.sum = 0 then
    match weights with
    | [] => none
    | _ :: _ => some ((weights.map fun _ => (0 : ℚ)).set 0 U16_MAX)
  else some (weights.map fun w => w * U16_MAX / weights.sum)

/-- Weight computation pipeline: get_unnormalized_weights followed by
prepare_weights (validator.py:124 and 144). -/
def compute_weights (inp : WeightInputs) : Option (List ℚ) :=
  (get_unnormalized_weights inp).bind prepare_weights

/-- Clamping into [0,1], the behavior the claim (and spec section 4.3 step 2)
states for lp_emission_percentage. -/
def clamp01 (x : ℚ) : ℚ := max 0 (min 1 x)

/- ### Claim C3: lp_emission_percentage clamping -/

/-- C3 counterexample: with total_liquidity 0, daily_lp_reward 1 and
miner_daily_emission 1 (so the guard miner_daily_emission + daily_lp_reward
> 0 passes), the code computes lp_emission_percentage = min(1, -1) = -1,
whereas clamping into [0,1] would give 0; consequently
liquidator_emission_percentage = 1 - (-1) = 2 lies outside [0,1].  The
growth-rate constant is irrelevant here since it is multiplied by the zero
total liquidity. -/
theorem c3_counterexample :
    lp_emission_percentage (19 / 10000) 0 1 1 = some (-1) ∧
    clamp01 ((0 * (19 / 10000 : ℚ) - 1) / 1) = 0 ∧
    (-1 : ℚ) ≠ 0 ∧ ¬ (1 - (-1 : ℚ) ≤ 1) := by
  refine ⟨?_, ?_, by norm_num, by norm_num⟩
  · norm_num [lp_emission_percentage, min_def]
  · norm_num [clamp01, min_def, max_def]

/-- C3 amended: when miner_daily_emission + daily_lp_reward > 0 and
miner_daily_emission ≠ 0, lp_emission_percentage equals
min(1, (daily_growth_target - daily_lp_reward) / miner_daily_emission): it
saturates at 1 but has no floor at 0 and can be negative; with
miner_daily_emission = 0 under the same guard it raises ZeroDivisionError;
otherwise it is 0.  Consequently liquidator_emission_percentage =
1 - lp_emission_percentage is always ≥ 0 but need not be ≤ 1. -/
theorem c3_lp_emission_no_floor (g tl r e : ℚ) :
    (e + r > 0 → e ≠ 0 →
      lp_emission_percentage g tl r e = some (min 1 ((tl * g - r) / e))) ∧
    (e = 0 → e + r > 0 → lp_emission_percentage g tl r e = none) ∧
    (¬ e + r > 0 → lp_emission_percentage g tl r e = some 0) ∧
    (∀ lp, lp_emission_percentage g tl r e = some lp → lp ≤ 1 ∧ 0 ≤ 1 - lp) := by
  refine ⟨?_, ?_, ?_, ?_⟩
  · intro hpos hne
    simp only [lp_emission_percentage, if_pos hpos, if_neg hne]
  · intro h0 hpos
    simp only [lp_emission_percentage, if_pos hpos, if_pos h0]
  · intro hneg
    simp only [lp_emission_percentage, if_neg hneg]
  · intro lp hlp
    simp only [lp_emission_percentage] at hlp
    by_cases h1 : e + r > 0
    · rw [if_pos h1] at hlp
      by_cases h2 : e = 0
      · rw [if_pos h2] at hlp
        exact absurd hlp (by simp)
      · rw [if_neg h2, Option.some.injEq] at hlp
        subst hlp
        exact ⟨min_le_left _ _, by linarith [min_le_left (1 : ℚ) ((tl * g - r) / e)]⟩
    · rw [if_neg h1, Option.some.injEq] at hlp
      subst hlp
      norm_num

/-- C3 witness: concrete application of the amended theorem where the guard
passes and the divisor is nonzero. -/
theorem c3_witness :
    lp_emission_percentage (19 / 10000) 0 0 1 =
      some (min 1 ((0 * (19 / 10000 : ℚ) - 0) / 1)) :=
  (c3_lp_emission_no_floor (19 / 10000) 0 0 1).1 (by norm_num) (by norm_num)

/- ### Claim C2: prepare_weights normalization -/

/-- Concrete chain state of the C2 counterexample: three uids; uids 1 and 2
each hold one liquidity provider staking 1 TAO (10^18 wei) out of a spot
total liquidity of 1000000, so the LP share saturates at 1 for any
growth-rate constant ≥ 10^-6 (in particular the real (1+1)**(1/365) - 1 ≈
0.0019, represented here by 19/10000); no liquidation activity anywhere. -/
def c2_inputs : WeightInputs where
  apr_growth_rate := 19 / 10000
  daily_lp_reward := 0
  miner_daily_emission := 1
  total_liquidity := 1000000
  n := 3
  max_liquidity_providers_per_hotkey := 16
  provider_count := fun uid => if uid = 0 then some 0 else some 1
  providers := fun _ _ => some ⟨10 ^ 18, 0, fun _ => 0⟩
  current_block := 72000

/-- C2 counterexample: get_unnormalized_weights produces the raw vector
[0, 1/1000000, 1/1000000], and prepare_weights maps it to
[0, 65535/2, 65535/2], whose nonzero entries are not integers (the source
normalizes with float division /, not integer division, and performs no
rounding), refuting the claim that the returned vector consists of
integers. -/
theorem c2_counterexample :
    get_unnormalized_weights c2_inputs = some [0, 1 / 1000000, 1 / 1000000] ∧
    prepare_weights [0, 1 / 1000000, 1 / 1000000] = some [0, 65535 / 2, 65535 / 2] ∧
    ∀ k : ℤ, (65535 : ℚ) / 2 ≠ (k : ℚ) := by
  refine ⟨?_, ?_, ?_⟩
  · have hr3 : List.range 3 = [0, 1, 2] := rfl
    have hr1 : List.range 1 = [0] := rfl
    norm_num [get_unnormalized_weights, lp_emission_percentage, lp_pass, uid_lp_weight,
      iterated_providers, lp_term, option_sum, option_list, liq_weights,
      liquidation_term, c2_inputs, hr3, hr1, min_def, Option.bind, List.set]
  · norm_num [prepare_weights]
  · intro k hk
    have h2 : (65535 : ℚ) = 2 * (k : ℚ) := by linarith
    have h3 : (65535 : ℤ) = 2 * k := by exact_mod_cast h2
    omega

/-- Scaling every element of a list scales its sum. -/
theorem sum_map_mul_const (l : List ℚ) (c : ℚ) :
    (l.map fun w => w * c).sum = l.sum * c := by
  induction l with
  | nil => simp
  | cons h t ih =>
    simp only [List.map_cons, List.sum_cons, ih]
    ring

/-- Mapping every element to zero yields a list of zeros. -/
theorem map_to_zero_eq_replicate (l : List ℚ) :
    (l.map fun _ => (0 : ℚ)) = List.replicate l.length 0 := by
  induction l with
  | nil => rfl
  | cons h t ih => simp [ih, List.replicate_succ]

/-- C2 amended: prepare_weights returns rationals (Python floats), not
integers: on a raw vector with non-negative entries and nonzero sum every
prepared entry is the non-negative rational raw * 65535 / total and the
prepared vector sums to exactly 65535; on a nonempty raw vector summing to 0,
the entry at the reserved sentinel uid 0 is 65535 and all other entries are
0. -/
theorem c2_prepared_weights_rational (weights : List ℚ)
    (hpos : ∀ w ∈ weights, 0 ≤ w) :
    (weights.sum ≠ 0 → ∃ u, prepare_weights weights = some u ∧
      (∀ x ∈ u, 0 ≤ x) ∧ u.sum = 65535) ∧
    (weights ≠ [] → weights.sum = 0 →
      prepare_weights weights =
        some ((65535 : ℚ) :: List.replicate (weights.length - 1) 0)) := by
  constructor
  · intro hne
    have hsumpos : 0 < weights.sum :=
      lt_of_le_of_ne (List.sum_nonneg hpos) (Ne.symm hne)
    refine ⟨weights.map fun w => w * 65535 / weights.sum, ?_, ?_, ?_⟩
    · simp only [prepare_weights, if_neg hne]
    · intro x hx
      obtain ⟨w, hw, rfl⟩ := List.mem_map.mp hx
      exact div_nonneg (mul_nonneg (hpos w hw) (by norm_num)) hsumpos.le
    · have hms : (weights.map fun w => w * 65535 / weights.sum) =
          weights.map fun w => w * (65535 / weights.sum) := by
        simp [mul_div_assoc]
      rw [hms, sum_map_mul_const]
      field_simp
  · intro hnil hsum
    match weights, hnil with
    | a :: t, _ =>
      simp only [prepare_weights, if_pos hsum, List.map_cons, List.set_cons_zero,
        map_to_zero_eq_replicate]
      simp

/-- C2 witness: concrete application of the amended theorem to the
non-negative raw vector [1, 1] with nonzero sum. -/
theorem c2_witness :
    ∃ u, prepare_weights [(1 : ℚ), 1] = some u ∧
      (∀ x ∈ u, 0 ≤ x) ∧ u.sum = 65535 :=
  (c2_prepared_weights_rational [1, 1] (by norm_num)).1 (by norm_num)

/- ### Claim C4: degenerate aggregates and division by zero -/

/-- Chain state of the C4 counterexample: zero spot total liquidity while uid
1 still has one registered liquidity provider (with a zero balance), so the
LP pass executes lp_pct * balance / total_liquidity with a zero divisor. -/
def c4_inputs : WeightInputs where
  apr_growth_rate := 19 / 10000
  daily_lp_reward := 0
  miner_daily_emission := 1
  total_liquidity := 0
  n := 2
  max_liquidity_providers_per_hotkey := 16
  provider_count := fun uid => if uid = 0 then some 0 else some 1
  providers := fun _ _ => some ⟨0, 0, fun _ => 0⟩
  current_block := 72000

/-- C4 counterexample: on a degenerate input with zero total liquidity and a
registered provider, get_unnormalized_weights raises ZeroDivisionError in the
LP pass (the embedding returns none) instead of resolving the case via a
sentinel-uid fallback, refuting the claim for the zero-total-liquidity
degenerate case. -/
theorem c4_counterexample :
    c4_inputs.total_liquidity = 0 ∧ get_unnormalized_weights c4_inputs = none := by
  refine ⟨rfl, ?_⟩
  have hr1 : List.range 1 = [0] := rfl
  have hr2 : List.range 2 = [0, 1] := rfl
  norm_num [get_unnormalized_weights, lp_emission_percentage, lp_pass, uid_lp_weight,
    iterated_providers, lp_term, option_sum, option_list, c4_inputs, hr1, hr2,
    min_def, Option.bind]

/-- option_list succeeds on a list of defined values and preserves length. -/
theorem option_list_defined {l : List (Option ℚ)} (h : ∀ o ∈ l, o ≠ none) :
    ∃ xs, option_list l = some xs ∧ xs.length = l.length := by
  induction l with
  | nil => exact ⟨[], rfl, rfl⟩
  | cons o rest ih =>
    obtain ⟨xs, hxs, hlen⟩ := ih fun o ho => h o (List.mem_cons_of_mem _ ho)
    cases o with
    | none => exact absurd rfl (h none (List.mem_cons_self _ _))
    | some x => exact ⟨x :: xs, by simp [option_list, hxs], by simp [hlen]⟩

/-- option_sum succeeds on a list of defined values. -/
theorem option_sum_defined {l : List (Option ℚ)} (h : ∀ o ∈ l, o ≠ none) :
    ∃ s, option_sum l = some s := by
  induction l with
  | nil => exact ⟨0, rfl⟩
  | cons o rest ih =>
    obtain ⟨s, hs⟩ := ih fun o ho => h o (List.mem_cons_of_mem _ ho)
    cases o with
    | none => exact absurd rfl (h none (List.mem_cons_self _ _))
    | some x => exact ⟨x + s, by simp [option_sum, hs]⟩

/-- With nonzero spot total liquidity one LP term never divides by zero. -/
theorem lp_term_defined (lp_pct tl : ℚ) (htl : tl ≠ 0) (o : Option ProviderInfo) :
    lp_term lp_pct tl o ≠ none := by
  cases o with
  | none => simp [lp_term]
  | some p => simp [lp_term, htl]

/-- With nonzero spot total liquidity the whole LP pass succeeds and yields
one weight per uid. -/
theorem lp_pass_defined (inp : WeightInputs) (lp_pct : ℚ)
    (htl : inp.total_liquidity ≠ 0) :
    ∃ w, lp_pass inp lp_pct = some w ∧ w.length = inp.n := by
  have hall : ∀ o ∈ (List.range inp.n).map fun uid =>
      if uid = 0 then some (0 : ℚ) else uid_lp_weight inp lp_pct uid, o ≠ none := by
    intro o ho
    obtain ⟨uid, _, rfl⟩ := List.mem_map.mp ho
    by_cases h0 : uid = 0
    · simp [h0]
    · rw [if_neg h0]
      have hterms : ∀ t ∈ (iterated_providers inp uid).map
          (lp_term lp_pct inp.total_liquidity), t ≠ none := by
        intro t ht
        obtain ⟨p, _, rfl⟩ := List.mem_map.mp ht
        exact lp_term_defined _ _ htl p
      obtain ⟨s, hs⟩ := option_sum_defined hterms
      rw [uid_lp_weight, hs]
      simp
  obtain ⟨w, hw, hlen⟩ := option_list_defined hall
  exact ⟨w, hw, by simpa using hlen⟩

/-- prepare_weights succeeds on every nonempty raw vector, and a zero raw
total routes the full 65535 to index 0. -/
theorem prepare_weights_defined (v : List ℚ) (hv : v ≠ []) :
    ∃ u, prepare_weights v = some u ∧ (v.sum = 0 → u.head? = some 65535) := by
  match v, hv with
  | a :: t, _ =>
    by_cases hs : (a :: t).sum = 0
    · refine ⟨((a :: t).map fun _ => (0 : ℚ)).set 0 65535, ?_, fun _ => ?_⟩
      · simp only [prepare_weights, if_pos hs]
      · simp
    · exact ⟨(a :: t).map fun w => w * 65535 / (a :: t).sum,
        by simp only [prepare_weights, if_neg hs], fun h => absurd h hs⟩

/-- C4 amended: provided the spot total liquidity is nonzero and the
lp-percentage division is defined (miner_daily_emission ≠ 0 whenever the
guard miner_daily_emission + daily_lp_reward > 0 passes), the weight
computation never raises a division-by-zero error and the remaining
degenerate aggregates are resolved by the explicit sentinel-uid fallbacks: a
non-positive grand liquidation total assigns the whole liquidator share
1 - lp_emission_percentage to uid 0, and a zero raw weight total makes
prepare_weights assign the full 65535 to uid 0.  Zero total liquidity is not
protected: see the counterexample. -/
theorem c4_sentinel_fallbacks (inp : WeightInputs) (hn : 0 < inp.n)
    (hliq : inp.total_liquidity ≠ 0)
    (hden : inp.miner_daily_emission + inp.daily_lp_reward > 0 →
      inp.miner_daily_emission ≠ 0) :
    ∃ w, get_unnormalized_weights inp = some w ∧
      ((liq_weights inp).sum ≤ 0 →
        ∃ lp_pct, lp_emission_percentage inp.apr_growth_rate inp.total_liquidity
            inp.daily_lp_reward inp.miner_daily_emission = some lp_pct ∧
          w.head? = some (1 - lp_pct)) ∧
      (∃ u, prepare_weights w = some u ∧ (w.sum = 0 → u.head? = some 65535)) := by
  obtain ⟨lp_pct, hlp⟩ : ∃ l, lp_emission_percentage inp.apr_growth_rate
      inp.total_liquidity inp.daily_lp_reward inp.miner_daily_emission = some l := by
    by_cases hpos : inp.miner_daily_emission + inp.daily_lp_reward > 0
    · exact ⟨min 1 ((inp.total_liquidity * inp.apr_growth_rate - inp.daily_lp_reward) /
          inp.miner_daily_emission),
        by simp only [lp_emission_percentage, if_pos hpos, if_neg (hden hpos)]⟩
    · exact ⟨0, by simp only [lp_emission_percentage, if_neg hpos]⟩
  obtain ⟨wlp, hwlp, hwlen⟩ := lp_pass_defined inp lp_pct hliq
  have hwne : wlp ≠ [] := by
    intro hemp
    rw [hemp] at hwlen
    simp at hwlen
    omega
  by_cases hls : (liq_weights inp).sum ≤ 0
  · refine ⟨wlp.set 0 (1 - lp_pct), ?_, fun _ => ⟨lp_pct, hlp, ?_⟩, ?_⟩
    · simp only [get_unnormalized_weights, hlp, Option.some_bind, hwlp,
        Option.map_some']
      rw [if_pos hls]
    · match wlp, hwne with
      | a :: t, _ => simp
    · apply prepare_weights_defined
      match wlp, hwne with
      | a :: t, _ => simp
  · refine ⟨(wlp.zip (liq_weights inp)).map fun wl =>
      wl.1 + (1 - lp_pct) * wl.2 / (liq_weights inp).sum, ?_,
      fun h => absurd h hls, ?_⟩
    · simp only [get_unnormalized_weights, hlp, Option.some_bind, hwlp,
        Option.map_some']
      rw [if_neg hls]
    · apply prepare_weights_defined
      have hliqlen : (liq_weights inp).length = inp.n := by
        simp [liq_weights]
      rw [← List.length_pos]
      simp only [List.length_map, List.length_zip, hwlen, hliqlen]
      omega

/-- Chain state witnessing the amended C4 theorem: one uid, no providers,
nonzero total liquidity. -/
def c4_witness_inputs : WeightInputs where
  apr_growth_rate := 19 / 10000
  daily_lp_reward := 0
  miner_daily_emission := 1
  total_liquidity := 1
  n := 1
  max_liquidity_providers_per_hotkey := 16
  provider_count := fun _ => some 0
  providers := fun _ _ => none
  current_block := 72000

/-- C4 witness: concrete application of the amended theorem. -/
theorem c4_witness :
    ∃ w, get_unnormalized_weights c4_witness_inputs = some w ∧
      ((liq_weights c4_witness_inputs).sum ≤ 0 →
        ∃ lp_pct, lp_emission_percentage c4_witness_inputs.apr_growth_rate
            c4_witness_inputs.total_liquidity c4_witness_inputs.daily_lp_reward
            c4_witness_inputs.miner_daily_emission = some lp_pct ∧
          w.head? = some (1 - lp_pct)) ∧
      (∃ u, prepare_weights w = some u ∧ (w.sum = 0 → u.head? = some 65535)) :=
  c4_sentinel_fallbacks c4_witness_inputs (by norm_num [c4_witness_inputs])
    (by norm_num [c4_witness_inputs]) (fun _ => by norm_num [c4_witness_inputs])

/- ### Claim C10: weight-update scheduling (validator.py:96-113) -/

/-- Outcome of one set_weights submission (validator.py:115-136): the
subtensor call reports (True, msg) or (False, msg), or the attempt raises. -/
inductive SetWeightsOutcome
  | success : SetWeightsOutcome
  | failure : SetWeightsOutcome
  | raised : SetWeightsOutcome
  deriving DecidableEq

/-- TenexiumValidator.update_weights (validator.py:101-113): on a successful
submission last_weight_update_block becomes the current block; on a reported
failure it is unchanged (only logged); on an exception it is unchanged and
the exception is re-raised (second component true). -/
def update_weights (outcome : SetWeightsOutcome) (current_block last_block : ℤ) :
    ℤ × Bool :=
  match outcome with
  | SetWeightsOutcome.success => (current_block, false)
  | SetWeightsOutcome.failure => (last_block, false)
  | SetWeightsOutcome.raised => (last_block, true)

/-- TenexiumValidator.should_update_weights (validator.py:96-99):
(current_block - last_weight_update_block) >= weight_update_interval_blocks. -/
def should_update_weights (current_block last_block interval : ℤ) : Bool :=
  decide (interval ≤ current_block - last_block)

/-- C10: update_weights advances last_weight_update_block to the current
block exactly when the submission reports success; on a reported failure or a
raised exception it is unchanged, so at any later (or equal) block the
should_update_weights condition still holds and the next cycle retries the
submission. -/
theorem c10_retry_until_success (outcome : SetWeightsOutcome)
    (current_block last_block interval : ℤ) :
    ((update_weights outcome current_block last_block).1 =
      if outcome = SetWeightsOutcome.success then current_block else last_block) ∧
    (outcome ≠ SetWeightsOutcome.success →
      ∀ later_block, current_block ≤ later_block →
        should_update_weights current_block last_block interval = true →
        should_update_weights later_block
          (update_weights outcome current_block last_block).1 interval = true) := by
  constructor
  · cases outcome <;> simp [update_weights]
  · intro hne later_block hle hs
    cases outcome with
    | success => exact absurd rfl hne
    | failure =>
      simp only [update_weights, should_update_weights, decide_eq_true_eq] at hs ⊢
      omega
    | raised =>
      simp only [update_weights, should_update_weights, decide_eq_true_eq] at hs ⊢
      omega

/-- C10 witness: a failed submission at block 200 (last update at block 100,
interval 100) leaves the update condition true at the later block 260. -/
theorem c10_witness :
    should_update_weights 260
      ((update_weights SetWeightsOutcome.failure 200 100).1) 100 = true :=
  (c10_retry_until_success SetWeightsOutcome.failure 200 100 100).2
    (by decide) 260 (by decide) (by decide)
